import Mathlib

/-
Verification of the ranger-transmissions indexing pipeline and catalog
engine against its natural-language specification.

The development shallowly embeds the relevant parts of the Python source:

  * src/transmissions/indexer/_indexer.py : filename grammars (regex
    patterns for the 2023 and 2024 formats), dispatch in
    Indexer._transmissionFromFile, the ensure/enrichment task logic of
    Indexer._ensureTransmission, the in-band transcription error sentinel
    of Indexer._addTranscription, and the task queue drained by
    Indexer.indexIntoStore.tasks.
  * src/transmissions/store/_db.py : DatabaseStore date-time and duration
    encoding, createTransmission, transmission, transmissions.
  * src/transmissions/ext/parallel.py : runInParallel and rateLimited.

Machine conventions: Python datetimes are modelled as proleptic-Gregorian
civil fields plus an optional fixed UTC offset in seconds; POSIX
timestamps are exact integers (every datetime built by this code has
whole seconds, so no floating-point rounding arises); durations are exact
rationals (seconds).  Pure Python functions become Lean functions;
stateful or concurrent code becomes explicit state passing or a step
relation.
-/

namespace RTX

/-! ## Civil time

Model of the Python `datetime` values this code constructs: civil fields
plus `tzOffsetSeconds`, which is `none` for a naive datetime and
`some off` for a fixed-offset aware one (the indexer uses UTC-07:00).
`daysFromCivil` and `civilFromDays` are the standard proleptic-Gregorian
day-number conversions that `datetime.timestamp` and
`datetime.fromtimestamp` realize. -/

/-- Day number (days since 1970-01-01) of a proleptic-Gregorian civil date. -/
def daysFromCivil (y : Int) (m d : Nat) : Int :=
  let y2 : Int := if m ≤ 2 then y - 1 else y
  let era : Int := Int.fdiv y2 400
  let yoe : Int := y2 - era * 400
  let mp : Nat := if 2 < m then m - 3 else m + 9
  let doy : Nat := (153 * mp + 2) / 5 + d - 1
  let doe : Int := yoe * 365 + Int.fdiv yoe 4 - Int.fdiv yoe 100 + (doy : Int)
  era * 146097 + doe - 719468

/-- Civil date (year, month, day) of a day number since 1970-01-01. -/
def civilFromDays (z0 : Int) : Int × Nat × Nat :=
  let z : Int := z0 + 719468
  let era : Int := Int.fdiv z 146097
  let doe : Nat := (z - era * 146097).toNat
  let yoe : Nat := (doe - doe / 1460 + doe / 36524 - doe / 146096) / 365
  let doy : Nat := doe - (365 * yoe + yoe / 4 - yoe / 100)
  let mp : Nat := (5 * doy + 2) / 153
  let d : Nat := doy - (153 * mp + 2) / 5 + 1
  let m : Nat := if mp < 10 then mp + 3 else mp - 9
  let y : Int := (yoe : Int) + era * 400
  (if m ≤ 2 then y + 1 else y, m, d)

/-- A Python `datetime`: civil fields plus an optional fixed UTC offset in
seconds (`none` models a naive datetime, i.e. `tzinfo is None`). -/
structure DateTime where
  year : Int
  month : Nat
  day : Nat
  hour : Nat
  minute : Nat
  second : Nat
  tzOffsetSeconds : Option Int
deriving DecidableEq, Repr

/-- POSIX timestamp (seconds since 1970-01-01T00:00:00Z) of an aware
datetime whose UTC offset is `off` seconds: `datetime.timestamp()`. -/
def DateTime.timestampWith (dt : DateTime) (off : Int) : Int :=
  daysFromCivil dt.year dt.month dt.day * 86400
    + (dt.hour : Int) * 3600 + (dt.minute : Int) * 60 + (dt.second : Int) - off

/-- `datetime.fromtimestamp(ts, tz=TimeZone.utc)`: the UTC civil time of a
POSIX timestamp. -/
def DateTime.fromTimestampUTC (ts : Int) : DateTime :=
  let days := Int.fdiv ts 86400
  let sod : Nat := (ts - days * 86400).toNat
  let c := civilFromDays days
  { year := c.1, month := c.2.1, day := c.2.2,
    hour := sod / 3600, minute := sod % 3600 / 60, second := sod % 60,
    tzOffsetSeconds := some 0 }

/-! ## The Transmission record

From src/transmissions/model/_transmission.py.  `path` is the textual
path of the .wav file; `duration` is in (exact rational) seconds. -/

/-- A radio transmission record (model/_transmission.py `Transmission`). -/
structure Transmission where
  eventID : String
  station : String
  system : String
  channel : String
  startTime : DateTime
  duration : Option ℚ
  path : String
  sha256 : Option String
  transcription : Option String
deriving DecidableEq, Repr

/-! ## String helpers

`startsWithStr s pre` is Python `s.startswith(pre)`; `hasWavSuffix` is
`Path(name).suffix == ".wav"`, which for a final path component holds
exactly when the name ends in ".wav" and has a nonempty stem (length at
least 5: the dot may not be the first character). -/

def startsWithStr (s pre : String) : Bool := pre.data.isPrefixOf s.data

def hasWavSuffix (name : String) : Bool :=
  (".wav".data.isSuffixOf name.data) && decide (5 ≤ name.data.length)

/-! ## Filename grammars

Executable embeddings of `Patterns.pattern_2023` and
`Patterns.pattern_2024` from indexer/_indexer.py.  Both regexes are
anchored and deterministic: each `\d{k}` group is a fixed count of
digits, each `[^']+` group is the maximal nonempty run of non-quote
characters ended by the next quote, and the trailing `.*\.wav$` matches
exactly when the remainder holds no newline and ends in ".wav". -/

/-- The single-quote character (written by code point to keep the source
free of quote literals). -/
def quoteChar : Char := Char.ofNat 39

/-- Take exactly `n` decimal digits from the front. -/
def takeDigits : Nat → List Char → Option (List Char × List Char)
  | 0, cs => some ([], cs)
  | _ + 1, [] => none
  | n + 1, c :: cs =>
    if c.isDigit then (takeDigits n cs).map (fun p => (c :: p.1, p.2)) else none

/-- Consume an exact literal from the front. -/
def dropLit : List Char → List Char → Option (List Char)
  | [], cs => some cs
  | _ :: _, [] => none
  | l :: ls, c :: cs => if c == l then dropLit ls cs else none

/-- Regex fragment `[^']+'`: a maximal nonempty run of non-quote
characters, then the closing quote (consumed). -/
def takeQuoted (cs : List Char) : Option (List Char × List Char) :=
  match cs.takeWhile (fun c => !(c == quoteChar)),
        cs.dropWhile (fun c => !(c == quoteChar)) with
  | [], _ => none
  | content, q :: rest => if q == quoteChar then some (content, rest) else none
  | _, [] => none

/-- Regex tail `.*\.wav$`: `.` does not match a newline, and the name must
end in ".wav". -/
def tailOk (cs : List Char) : Bool :=
  cs.all (fun c => !(c == '\n')) && (".wav".data.isSuffixOf cs)

/-- The leading date-time groups shared by every grammar:
`\d{4}-\d{2}-\d{2} \d{2}-\d{2}-\d{2}`. -/
structure DTGroups where
  year : String
  month : String
  day : String
  hour : String
  minute : String
  second : String
deriving DecidableEq, Repr

def parseDT (cs : List Char) : Option (DTGroups × List Char) := do
  let (y, cs) ← takeDigits 4 cs
  let cs ← dropLit ("-".data) cs
  let (mo, cs) ← takeDigits 2 cs
  let cs ← dropLit ("-".data) cs
  let (d, cs) ← takeDigits 2 cs
  let cs ← dropLit (" ".data) cs
  let (h, cs) ← takeDigits 2 cs
  let cs ← dropLit ("-".data) cs
  let (mi, cs) ← takeDigits 2 cs
  let cs ← dropLit ("-".data) cs
  let (s, cs) ← takeDigits 2 cs
  return (⟨String.mk y, String.mk mo, String.mk d,
           String.mk h, String.mk mi, String.mk s⟩, cs)

/-- Named groups captured by `pattern_2023`.  Note: this pattern has no
`systemType`, `stationType` or `channel2` group. -/
structure Match2023 where
  dt : DTGroups
  systemName : String
  stationName1 : String
  channel1 : String
deriving DecidableEq, Repr

/-- `Patterns.pattern_2023`: `^\d{4}-\d{2}-\d{2} \d{2}-\d{2}-\d{2}
SYSTEM [AB] Group Call- <q>[^']+<q> called <q>[^']+<q>.*\.wav$`
(with `<q>` the single quote). -/
def parse2023 (name : String) : Option Match2023 := do
  let (g, cs) ← parseDT name.data
  let cs ← dropLit (" SYSTEM ".data) cs
  match cs with
  | [] => none
  | c :: cs =>
    if c == 'A' || c == 'B' then do
      let cs ← dropLit (" Group Call- ".data) cs
      let cs ← dropLit [quoteChar] cs
      let (st, cs) ← takeQuoted cs
      let cs ← dropLit (" called ".data) cs
      let cs ← dropLit [quoteChar] cs
      let (ch, cs) ← takeQuoted cs
      if tailOk cs then
        some ⟨g, String.singleton c, String.mk st, String.mk ch⟩
      else none
    else none

/-- The alternation inside `pattern_2024`: either the `A-1 Group Call-`
branch (capturing `stationName1` and `channel1`) or the
`BRC 911 ALT All Call-` branch (capturing `channel2 = "BRC 911 ALT"` and
`stationName2`). -/
inductive M2024Body where
  | callA (stationName1 channel1 : String)
  | callB (stationName2 : String)
deriving DecidableEq, Repr

structure Match2024 where
  dt : DTGroups
  body : M2024Body
deriving DecidableEq, Repr

def branchA (cs : List Char) : Option M2024Body := do
  let cs ← dropLit (" A-1 Group Call- ".data) cs
  let cs ← dropLit [quoteChar] cs
  let (st, cs) ← takeQuoted cs
  let cs ← dropLit (" called ".data) cs
  let cs ← dropLit [quoteChar] cs
  let (ch, cs) ← takeQuoted cs
  if tailOk cs then some (M2024Body.callA (String.mk st) (String.mk ch)) else none

def branchB (cs : List Char) : Option M2024Body := do
  let cs ← dropLit (" BRC 911 ALT All Call- ".data) cs
  let cs ← dropLit [quoteChar] cs
  let (st, cs) ← takeQuoted cs
  let cs ← dropLit (" called ".data) cs
  let cs ← dropLit [quoteChar] cs
  let cs ← dropLit ("All".data) cs
  let cs ← dropLit [quoteChar] cs
  if tailOk cs then some (M2024Body.callB (String.mk st)) else none

/-- `Patterns.pattern_2024`: same date-time lead, then the alternation,
then `.*\.wav$` (the regex tries the `A-1` branch first). -/
def parse2024 (name : String) : Option Match2024 :=
  match parseDT name.data with
  | none => none
  | some (g, cs) =>
    match branchA cs with
    | some b => some ⟨g, b⟩
    | none =>
      match branchB cs with
      | some b => some ⟨g, b⟩
      | none => none

/-! ## Record assembly (`Indexer._transmissionFromFile`) -/

/-- Python `int(...)` on the all-digit strings the grammars capture. -/
def toNatD (s : String) : Nat :=
  s.data.foldl (fun n c => n * 10 + (c.toNat - 48)) 0

/-- `DateTime(year=..., ..., tzinfo=TZInfo.PDT.value)`: the configured
zone is the fixed offset UTC-07:00 = -25200 seconds. -/
def startTimeOf (g : DTGroups) : DateTime :=
  { year := (toNatD g.year : Int), month := toNatD g.month, day := toNatD g.day,
    hour := toNatD g.hour, minute := toNatD g.minute, second := toNatD g.second,
    tzOffsetSeconds := some (-25200) }

/-- Field assembly for a 2023 match.  The 2023 pattern captures no
`systemType` group, so `getValue("systemType")` raises `IndexError` and the
code takes the `system = f"System {systemName}"` branch; likewise no
`stationType` group, so `station = stationName1`. -/
def assemble2023 (eventID name : String) (m : Match2023) : Transmission :=
  { eventID := eventID, station := m.stationName1,
    system := "System " ++ m.systemName, channel := m.channel1,
    startTime := startTimeOf m.dt,
    duration := none, path := name, sha256 := none, transcription := none }

/-- Field assembly for a 2024 match.  The 2024 pattern captures neither a
`systemName` nor a `systemType` group, so `systemName = "?"` and
`system = "System ?"`; `station` is `stationName1` if captured, else
`stationName2`; `channel` prefers `channel1`, else `channel2`. -/
def assemble2024 (eventID name : String) (m : Match2024) : Transmission :=
  { eventID := eventID,
    station := match m.body with
      | M2024Body.callA s _ => s
      | M2024Body.callB s => s,
    system := "System ?",
    channel := match m.body with
      | M2024Body.callA _ c => c
      | M2024Body.callB _ => "BRC 911 ALT",
    startTime := startTimeOf m.dt,
    duration := none, path := name, sha256 := none, transcription := none }

/-- Outcome of `Indexer._transmissionFromFile`: `none` (a silently skipped
non-.wav file), a raised `InvalidFileError` with its message, or a
minimally filled-in Transmission. -/
inductive ParseOutcome where
  | notAudio
  | invalid (message : String)
  | parsed (t : Transmission)
deriving DecidableEq, Repr

/-- `Indexer._transmissionFromFile`: skip non-.wav files; dispatch on the
filename prefix — `2023-` to `pattern_2023`, `2024-` to `pattern_2024`,
anything else raises `InvalidFileError("No matching pattern for ...")`;
a matched prefix whose pattern fails raises
`InvalidFileError("Pattern failed for ...")`. -/
def transmissionFromFile (eventID name : String) : ParseOutcome :=
  if hasWavSuffix name = false then ParseOutcome.notAudio
  else if startsWithStr name "2023-" then
    match parse2023 name with
    | none => ParseOutcome.invalid ("Pattern failed for " ++ name)
    | some m => ParseOutcome.parsed (assemble2023 eventID name m)
  else if startsWithStr name "2024-" then
    match parse2024 name with
    | none => ParseOutcome.invalid ("Pattern failed for " ++ name)
    | some m => ParseOutcome.parsed (assemble2024 eventID name m)
  else ParseOutcome.invalid ("No matching pattern for " ++ name)

/-- The first field of a parsed outcome we examine in scenario S1. -/
def systemOfOutcome : ParseOutcome → Option String
  | ParseOutcome.parsed t => some t.system
  | _ => none

/-! ## Catalog store (store/_db.py `DatabaseStore`)

Failures raised by store operations: the `assert dateTime.tzinfo is not
None` in `asDateTimeValue`, `StorageError`, and the bare
`NotImplementedError` raised by `DatabaseStore.transmissions`. -/

inductive StoreFailure where
  | assertionError
  | storageError (message : String)
  | notImplemented
deriving DecidableEq, Repr

def pad2 (n : Nat) : String := if n < 10 then "0" ++ toString n else toString n

def pad4 (n : Int) : String :=
  let a := n.toNat
  if a < 10 then "000" ++ toString a
  else if a < 100 then "00" ++ toString a
  else if a < 1000 then "0" ++ toString a
  else toString a

/-- The `±HH:MM` suffix Python appends when printing a fixed-offset aware
datetime. -/
def tzSuffixStr (off : Int) : String :=
  let sign := if off < 0 then "-" else "+"
  let a := off.natAbs
  sign ++ pad2 (a / 3600) ++ ":" ++ pad2 (a % 3600 / 60)

/-- `str(dateTime)` for the datetimes this code builds (whole seconds,
fixed offset). -/
def dtStr (dt : DateTime) : String :=
  pad4 dt.year ++ "-" ++ pad2 dt.month ++ "-" ++ pad2 dt.day ++ " "
    ++ pad2 dt.hour ++ ":" ++ pad2 dt.minute ++ ":" ++ pad2 dt.second
    ++ (match dt.tzOffsetSeconds with
        | none => ""
        | some off => tzSuffixStr off)

/-- `DatabaseStore.asDateTimeValue`: assert the datetime is aware, take
its POSIX timestamp, and refuse negative (pre-epoch) values with a
`StorageError`. -/
def asDateTimeValue (dt : DateTime) : Except StoreFailure Int :=
  match dt.tzOffsetSeconds with
  | none => Except.error StoreFailure.assertionError
  | some off =>
    let ts := dt.timestampWith off
    if ts < 0 then
      Except.error (StoreFailure.storageError
        ("DateTime is before the UTC epoch: " ++ dtStr dt))
    else Except.ok ts

/-- `DatabaseStore.fromDateTimeValue`: decode a stored timestamp as the
same instant expressed in UTC. -/
def fromDateTimeValue (ts : Int) : DateTime := DateTime.fromTimestampUTC ts

/-- Modelled from the spec: one row of the `TRANSMISSION` table of the
catalog persistence format (spec section 6) — `EVENT, STATION, SYSTEM,
CHANNEL, START_TIME REAL, DURATION REAL NULL, FILE_NAME, SHA256 NULL,
TRANSCRIPTION NULL` with primary key `(EVENT, SYSTEM, CHANNEL,
START_TIME)`.  The SQL execution layer (`transmissions.ext.sqlite`) is
not part of the provided source tree, so row storage and the
insert/select semantics of queries.createTransmission /
queries.transmission are modelled here. -/
structure Row where
  event : String
  station : String
  system : String
  channel : String
  startTime : Int
  duration : Option ℚ
  fileName : String
  sha256 : Option String
  transcription : Option String
deriving DecidableEq, Repr

/-- Modelled from the spec: the catalog state — the persisted
`TRANSMISSION` rows plus a log of the queries the store has executed
(used to state that a failed encode runs no query at all). -/
structure DB where
  rows : List Row
  queryLog : List String
deriving DecidableEq, Repr

/-- The WHERE clause of queries.transmission: `EVENT = :eventID and
SYSTEM = :system and CHANNEL = :channel and START_TIME = :startTime`. -/
def keyMatches (r : Row) (eventID system channel : String) (ts : Int) : Bool :=
  r.event == eventID && r.system == system && r.channel == channel
    && r.startTime == ts

/-- The parameter dict `DatabaseStore.createTransmission` binds (duration
encoding `asDurationValue` is `total_seconds()`, the identity on rational
seconds). -/
def rowOfTransmission (t : Transmission) (ts : Int) : Row :=
  ⟨t.eventID, t.station, t.system, t.channel, ts, t.duration, t.path,
    t.sha256, t.transcription⟩

/-- Row decoding done by `DatabaseStore.transmission`: `fromDurationValue`
on a non-null DURATION, `fromDateTimeValue` on START_TIME, the remaining
columns verbatim. -/
def decodeRow (r : Row) : Transmission :=
  ⟨r.event, r.station, r.system, r.channel, fromDateTimeValue r.startTime,
    r.duration, r.fileName, r.sha256, r.transcription⟩

/-- `DatabaseStore.createTransmission`: encode the parameters (the
date-time encode can raise, in which case no query runs and the state is
unchanged), then run the INSERT; a primary-key collision is a raised
storage error. -/
def createTransmission (db : DB) (t : Transmission) :
    Except StoreFailure Unit × DB :=
  match asDateTimeValue t.startTime with
  | Except.error e => (Except.error e, db)
  | Except.ok ts =>
    if db.rows.any (fun r => keyMatches r t.eventID t.system t.channel ts) then
      (Except.error (StoreFailure.storageError
          "UNIQUE constraint failed: TRANSMISSION"),
        { db with queryLog := db.queryLog ++ ["create transmission"] })
    else
      (Except.ok (),
        { rows := db.rows ++ [rowOfTransmission t ts],
          queryLog := db.queryLog ++ ["create transmission"] })

/-- `DatabaseStore.transmission`: encode the key (the date-time encode can
raise, in which case no query runs), then SELECT by composite key and
decode the first row found, if any. -/
def transmission (db : DB) (eventID system channel : String)
    (startTime : DateTime) : Except StoreFailure (Option Transmission) × DB :=
  match asDateTimeValue startTime with
  | Except.error e => (Except.error e, db)
  | Except.ok ts =>
    let db2 : DB := { db with queryLog := db.queryLog ++ ["look up transmission"] }
    match db.rows.find? (fun r => keyMatches r eventID system channel ts) with
    | none => (Except.ok none, db2)
    | some r => (Except.ok (some (decodeRow r)), db2)

/-- `DatabaseStore.transmissions` as written in store/_db.py lines
259-260: the body is `raise NotImplementedError()`, and no class in the
source tree overrides it. -/
def transmissions (db : DB) : Except StoreFailure (List Transmission) × DB :=
  (Except.error StoreFailure.notImplemented, db)

/-! ## Ensure and enrichment (`Indexer._ensureTransmission`) -/

/-- The three enrichment tasks the indexer can append to the task queue. -/
inductive EnrichTask where
  | addSignature
  | addDuration
  | addTranscription
deriving DecidableEq, Repr

/-- The two logged conflict kinds of `_ensureTransmission`. -/
inductive ConflictKind where
  | stationMismatch
  | pathMismatch
deriving DecidableEq, Repr

/-- The tail of `_ensureTransmission`: propose each enrichment task whose
flag is set and whose attribute is still missing on the chosen record, in
source order (checksum, then duration, then transcription). -/
def proposalsFor (tr : Transmission) (cc cd ct : Bool) : List EnrichTask :=
  (if cc && tr.sha256.isNone then [EnrichTask.addSignature] else [])
    ++ (if cd && tr.duration.isNone then [EnrichTask.addDuration] else [])
    ++ (if ct && tr.transcription.isNone then [EnrichTask.addTranscription] else [])

/-- What one run of `_ensureTransmission` does: at most one
`createTransmission` call, at most one logged conflict (which ends the
run with no proposals), and the enrichment tasks appended to the queue. -/
structure EnsureResult where
  createdRow : Option Transmission
  conflict : Option ConflictKind
  proposals : List EnrichTask
deriving DecidableEq, Repr

/-- `Indexer._ensureTransmission`, given the result of the composite-key
lookup: create the row when absent; when present, a station mismatch or a
path mismatch is logged and the row skipped; otherwise the existing row
replaces the incoming one and only its still-NULL attributes are
proposed. -/
def ensureTransmission (existing : Option Transmission) (t : Transmission)
    (cc cd ct : Bool) : EnsureResult :=
  match existing with
  | none => ⟨some t, none, proposalsFor t cc cd ct⟩
  | some e =>
    if t.station ≠ e.station then ⟨none, some ConflictKind.stationMismatch, []⟩
    else if t.path ≠ e.path then ⟨none, some ConflictKind.pathMismatch, []⟩
    else ⟨none, none, proposalsFor e cc cd ct⟩

/-- A single-column write to an existing row (the
`setTransmissionDuration` / `setTransmissionSHA256` /
`setTransmissionTranscription` store operations, i.e. `update
TRANSMISSION set <column> = :value where <composite key>`). -/
inductive AttrWrite where
  | wDuration (v : ℚ)
  | wSha256 (v : String)
  | wTranscription (v : String)
deriving DecidableEq, Repr

/-- The enrichment task that issues a given write. -/
def AttrWrite.task : AttrWrite → EnrichTask
  | AttrWrite.wDuration _ => EnrichTask.addDuration
  | AttrWrite.wSha256 _ => EnrichTask.addSignature
  | AttrWrite.wTranscription _ => EnrichTask.addTranscription

/-- Effect of one single-column write on a row (decoded view). -/
def applyWrite (tr : Transmission) : AttrWrite → Transmission
  | AttrWrite.wDuration v => { tr with duration := some v }
  | AttrWrite.wSha256 v => { tr with sha256 := some v }
  | AttrWrite.wTranscription v => { tr with transcription := some v }

def applyWrites (tr : Transmission) (ws : List AttrWrite) : Transmission :=
  ws.foldl applyWrite tr

/-! ## The transcription error sentinel (`Indexer._addTranscription`) -/

/-- The transcription value `_addTranscription` stores: the transcriber
text on success, or the in-band sentinel `"*** ERROR: "` followed by the
failure description when the transcriber raised (the failure is handled,
not propagated). -/
def addTranscriptionValue : Except String String → String
  | Except.ok text => text
  | Except.error msg => "*** ERROR: " ++ msg

/-- The `store.setTransmissionTranscription` call `_addTranscription`
always makes, keyed by the transmission's composite key. -/
structure SetTranscriptionCall where
  eventID : String
  system : String
  channel : String
  startTime : DateTime
  value : String
deriving DecidableEq, Repr

def addTranscriptionCall (t : Transmission) (result : Except String String) :
    SetTranscriptionCall :=
  ⟨t.eventID, t.system, t.channel, t.startTime, addTranscriptionValue result⟩

/-! ## The task queue (`Indexer.indexIntoStore`)

`taskQueue` is a `deque` that producers extend with `taskQueue.append(x)`
(the right end) and the `tasks()` generator drains with `taskQueue.pop()`
— also the right end.  We model the queue contents as a list whose last
element is the most recently appended task. -/

/-- `deque.pop()`: remove and return the element at the right (append)
end. -/
def dequePop : List α → Option (α × List α)
  | [] => none
  | x :: xs =>
    match dequePop xs with
    | none => some (x, [])
    | some (z, q) => some (z, x :: q)

/-- The `while taskQueue: yield taskQueue.pop()` loop of
`indexIntoStore.tasks`, run to exhaustion (fuelled by the queue length,
which bounds the number of pops). -/
def drainLoop : Nat → List α → List α
  | 0, _ => []
  | fuel + 1, q =>
    match dequePop q with
    | none => []
    | some (z, q2) => z :: drainLoop fuel q2

/-- The order in which `tasks()` hands the queued tasks to the parallel
runner, for a queue whose contents (oldest first) are `q` once the scan
is complete. -/
def drainOrder (q : List α) : List α := drainLoop q.length q

/-! ## The parallel runner (`runInParallel`)

`runInParallel(tasks, maxTasks=n)` awaits a `DeferredList` of `n`
cooperative workers (`cooperator.coiterate(tasks) for i in range(n)`)
that draw from one shared iterator; a drawn coroutine is started by
`ensureDeferred` and the worker awaits it before drawing again.  The
small-step system: each of the `n` workers is either idle or holds one
in-flight task; an idle worker may start the next pending task; a busy
worker may complete its task. -/

structure RunnerState (τ : Type) where
  pending : List τ
  workers : List (Option τ)
  completed : List τ

/-- The runner's initial state: all of `tasks` pending, `maxTasks` idle
workers. -/
def runnerInit (tasks : List τ) (maxTasks : Nat) : RunnerState τ :=
  ⟨tasks, List.replicate maxTasks none, []⟩

inductive RunnerStep : RunnerState τ → RunnerState τ → Prop where
  | start (s : RunnerState τ) (i : Nat) (t : τ) (rest : List τ)
      (hw : s.workers[i]? = some none)
      (hp : s.pending = t :: rest) :
      RunnerStep s ⟨rest, s.workers.set i (some t), s.completed⟩
  | finish (s : RunnerState τ) (i : Nat) (t : τ)
      (hw : s.workers[i]? = some (some t)) :
      RunnerStep s ⟨s.pending, s.workers.set i none, t :: s.completed⟩

inductive RunnerReach (s0 : RunnerState τ) : RunnerState τ → Prop where
  | refl : RunnerReach s0 s0
  | step {s s2 : RunnerState τ} :
      RunnerReach s0 s → RunnerStep s s2 → RunnerReach s0 s2

/-- The number of tasks started and not yet completed. -/
def inFlight (s : RunnerState τ) : Nat := s.workers.countP Option.isSome

/-! ## The rate limiter (`rateLimited`)

`rateLimited(tasks, maxRate, timeWindow)` keeps `processed`, the list of
release timestamps; `taskCount()` prunes it to the entries newer than
`time() - timeWindow` (the Python loop keeps the suffix from the first
entry inside the window — `pruneAux` — which agrees with filtering since
the list is in time order) and then the limiter releases the next task
only when the pruned length is below `maxRate * timeWindow`.  Times are
exact rationals; the clock is monotone. -/

/-- The pruning loop of `taskCount`: keep the suffix from the first entry
newer than the expiry time, else empty. -/
def pruneAux : List ℚ → ℚ → List ℚ
  | [], _ => []
  | x :: xs, e => if e < x then x :: xs else pruneAux xs e

structure RLState where
  released : List ℚ
  processed : List ℚ
  clock : ℚ
deriving DecidableEq, Repr

inductive RLStep (maxRate : ℕ) (timeWindow : ℚ) : RLState → RLState → Prop where
  | stall (s : RLState) (now : ℚ) (hc : s.clock ≤ now)
      (hguard : (maxRate : ℚ) * timeWindow
          ≤ ((pruneAux s.processed (now - timeWindow)).length : ℚ)) :
      RLStep maxRate timeWindow s
        ⟨s.released, pruneAux s.processed (now - timeWindow), now⟩
  | release (s : RLState) (tCheck tRel : ℚ) (hc : s.clock ≤ tCheck)
      (ht : tCheck ≤ tRel)
      (hguard : ((pruneAux s.processed (tCheck - timeWindow)).length : ℚ)
          < (maxRate : ℚ) * timeWindow) :
      RLStep maxRate timeWindow s
        ⟨s.released ++ [tRel],
          pruneAux s.processed (tCheck - timeWindow) ++ [tRel], tRel⟩

inductive RLReach (maxRate : ℕ) (timeWindow : ℚ) (c0 : ℚ) : RLState → Prop where
  | init : RLReach maxRate timeWindow c0 ⟨[], [], c0⟩
  | step {s s2 : RLState} : RLReach maxRate timeWindow c0 s →
      RLStep maxRate timeWindow s s2 → RLReach maxRate timeWindow c0 s2

/-- The number of releases inside the rolling window `(t - timeWindow, t]`
(the window the code itself counts: entries strictly newer than
`now - timeWindow`). -/
def windowCount (released : List ℚ) (t timeWindow : ℚ) : Nat :=
  released.countP (fun r => decide (t - timeWindow < r ∧ r ≤ t))

/-! ## Concrete sample values -/

/-- A single quote as a string. -/
def sq : String := String.singleton quoteChar

/-- Scenario S1's filename. -/
def s1FileName : String :=
  "2023-08-24 18-28-05 SYSTEM A Group Call- " ++ sq ++ "Ranger Evnt 148" ++ sq
    ++ " called " ++ sq ++ "RANGER TAC 1" ++ sq ++ ".wav"

/-- The record the code actually produces for scenario S1 under event
"2023" (note `system = "System A"`). -/
def s1Actual : Transmission :=
  { eventID := "2023", station := "Ranger Evnt 148", system := "System A",
    channel := "RANGER TAC 1",
    startTime := { year := 2023, month := 8, day := 24, hour := 18,
                   minute := 28, second := 5, tzOffsetSeconds := some (-25200) },
    duration := none, path := s1FileName, sha256 := none, transcription := none }

/-- A 2017-format filename (the first example listed above
`Patterns.pattern_2017` in the source). -/
def f2017Name : String :=
  "2017-08-28 21-40-52 SYSTEM A Radio _MDC_ calls group _ESD Ops 1_ (00-04).wav"

/-- An empty catalog. -/
def dbEmpty : DB := ⟨[], []⟩

/-- A fully enriched catalog row for witness checks. -/
def eSample : Transmission :=
  { s1Actual with duration := some (3 / 2 : ℚ), sha256 := some "abc123",
                  transcription := some "hello" }

/-- The same recording as freshly re-parsed on a re-scan (derived
attributes empty). -/
def tSample : Transmission :=
  { eSample with duration := none, sha256 := none, transcription := none }

/-- A transmission whose aware start time is strictly before the UTC
epoch. -/
def tPreEpoch : Transmission :=
  { s1Actual with
      startTime := { year := 1969, month := 1, day := 1, hour := 0,
                     minute := 0, second := 0, tzOffsetSeconds := some 0 } }

/-! ## Claim conclusions stated as named propositions -/

/-- Conclusion of claim C1 for a row `e` found under the incoming
record `t`: the ensure pass creates nothing and proposes no task for any
derived attribute that is already non-null; consequently any sequence of
writes issued by the proposed tasks leaves every already-non-null
attribute at its stored value, and a fully enriched row gets no proposals
at all and is left entirely unchanged. -/
def C1Concl (e t : Transmission) (cc cd ct : Bool) : Prop :=
  (ensureTransmission (some e) t cc cd ct).createdRow = none ∧
  (e.sha256 ≠ none →
    EnrichTask.addSignature ∉ (ensureTransmission (some e) t cc cd ct).proposals) ∧
  (e.duration ≠ none →
    EnrichTask.addDuration ∉ (ensureTransmission (some e) t cc cd ct).proposals) ∧
  (e.transcription ≠ none →
    EnrichTask.addTranscription ∉ (ensureTransmission (some e) t cc cd ct).proposals) ∧
  (∀ ws : List AttrWrite,
    (∀ w ∈ ws, w.task ∈ (ensureTransmission (some e) t cc cd ct).proposals) →
    (e.sha256 ≠ none → (applyWrites e ws).sha256 = e.sha256) ∧
    (e.duration ≠ none → (applyWrites e ws).duration = e.duration) ∧
    (e.transcription ≠ none →
      (applyWrites e ws).transcription = e.transcription)) ∧
  (e.sha256 ≠ none → e.duration ≠ none → e.transcription ≠ none →
    (ensureTransmission (some e) t cc cd ct).proposals = [] ∧
    ∀ ws : List AttrWrite,
      (∀ w ∈ ws, w.task ∈ (ensureTransmission (some e) t cc cd ct).proposals) →
      applyWrites e ws = e)

/-- Conclusion of claim C5 for a transmission `t` whose transcriber call
failed with description `msg`: the task still issues its store write for
`t`'s composite key, the written value is the sentinel string, applying
the write makes the column non-null, and no later ensure pass proposes
`addTranscription` for a row whose transcription column is non-null. -/
def C5Concl (t : Transmission) (msg : String) : Prop :=
  addTranscriptionCall t (Except.error msg) =
    ⟨t.eventID, t.system, t.channel, t.startTime, "*** ERROR: " ++ msg⟩ ∧
  (∃ rest, (addTranscriptionCall t (Except.error msg)).value
      = "*** ERROR: " ++ rest) ∧
  (∀ e : Transmission,
    (applyWrite e (AttrWrite.wTranscription
        (addTranscriptionValue (Except.error msg)))).transcription
      = some ("*** ERROR: " ++ msg)) ∧
  (∀ (e t2 : Transmission) (cc cd ct : Bool), e.transcription ≠ none →
    EnrichTask.addTranscription ∉ (ensureTransmission (some e) t2 cc cd ct).proposals)

/-- Conclusion of claim C6 for a store `db`, a transmission `t` whose
aware start time has offset `off`: creation succeeds, and the composite
key lookup on the resulting store returns `t` with its start time decoded
as the same instant expressed in UTC. -/
def C6Concl (db : DB) (t : Transmission) (off : Int) : Prop :=
  ∃ db2 : DB,
    createTransmission db t = (Except.ok (), db2) ∧
    (transmission db2 t.eventID t.system t.channel t.startTime).1 =
      Except.ok (some
        { t with startTime := fromDateTimeValue (t.startTime.timestampWith off) })

/-- Conclusion of claim C10 for a store `db` and a transmission `t` whose
aware start time has a negative POSIX timestamp: both encoding store
operations raise a storage error whose message begins with "DateTime is
before the UTC epoch" and leave the store (rows and query log) untouched;
and for any naive start time the encoder's assertion fails instead,
likewise before any query. -/
def C10Concl (db : DB) (t : Transmission) : Prop :=
  (∃ m, createTransmission db t = (Except.error (StoreFailure.storageError m), db) ∧
    startsWithStr m "DateTime is before the UTC epoch" = true) ∧
  (∃ m, transmission db t.eventID t.system t.channel t.startTime =
      (Except.error (StoreFailure.storageError m), db) ∧
    startsWithStr m "DateTime is before the UTC epoch" = true) ∧
  (∀ (db2 : DB) (t2 : Transmission), t2.startTime.tzOffsetSeconds = none →
    createTransmission db2 t2 = (Except.error StoreFailure.assertionError, db2) ∧
    transmission db2 t2.eventID t2.system t2.channel t2.startTime =
      (Except.error StoreFailure.assertionError, db2))

/-! ## Helper lemmas -/

/-- `deque.pop()` on a nonempty queue returns the most recently appended
element and the rest. -/
theorem dequePop_concat (q : List α) (x : α) : dequePop (q ++ [x]) = some (x, q) := by
  induction q with
  | nil => rfl
  | cons a q ih => simp [dequePop, ih]

theorem drainLoop_eq_reverse :
    ∀ (fuel : Nat) (q : List α), q.length ≤ fuel → drainLoop fuel q = q.reverse := by
  intro fuel
  induction fuel with
  | zero =>
    intro q hq
    have hq0 : q = [] := List.eq_nil_of_length_eq_zero (Nat.le_zero.mp hq)
    subst hq0
    rfl
  | succ n ih =>
    intro q hq
    rcases List.eq_nil_or_concat q with rfl | ⟨q2, x, rfl⟩
    · rfl
    · have hlen : q2.length ≤ n := by
        have := hq
        simp only [List.concat_eq_append, List.length_append,
          List.length_singleton] at this
        omega
      simp [List.concat_eq_append, drainLoop, dequePop_concat, ih q2 hlen]

/-! ## Claim C2 — task dispatch order -/

/-- Claim C2 counterexample: the pending-task queue is not drained FIFO.
With two tasks enqueued in the order 1, 2 (and the scan complete), the
`tasks()` generator hands them to the runner in the order 2, 1 — the task
enqueued later starts first. -/
theorem claim2_counterexample :
    drainOrder [1, 2] = [2, 1] ∧ drainOrder [1, 2] ≠ ([1, 2] : List Nat) := by
  constructor
  · rfl
  · decide

/-- Claim C2 (amended): the pending-task store is drained LIFO, not FIFO:
`taskQueue.append` and `taskQueue.pop` both operate on the right end of
the deque, so the `tasks()` generator hands the queued tasks to the
parallel runner most-recently-enqueued first — the exact reverse of
production order.  Completion order remains unconstrained. -/
theorem claim2_lifo_drain (q : List α) : drainOrder q = q.reverse :=
  drainLoop_eq_reverse q.length q (Nat.le_refl _)

/-! ## Claim C3 — scenario S1 -/

/-- Claim C3 counterexample: parsing scenario S1's filename under event
"2023" succeeds, but the resulting `system` is "System A", not the
"Conventional A" the claim expects — the 2023 grammar captures no
`systemType` group, so the SYSTEM→Conventional canonicalization never
applies to it. -/
theorem claim3_counterexample :
    systemOfOutcome (transmissionFromFile "2023" s1FileName) = some "System A" ∧
    systemOfOutcome (transmissionFromFile "2023" s1FileName)
      ≠ some "Conventional A" := by
  constructor
  · rfl
  · decide

/-- Claim C3 (amended): parsing the filename `2023-08-24 18-28-05 SYSTEM A
Group Call- (q)Ranger Evnt 148(q) called (q)RANGER TAC 1(q).wav` under
event "2023" yields a partial record with eventID "2023", system
"System A" (the 2023 grammar captures no systemType group, so the
canonicalization branch is never reached and the default `System +
systemName` branch applies), station "Ranger Evnt 148", channel
"RANGER TAC 1", and startTime 2023-08-24T18:28:05 at UTC-07:00. -/
theorem claim3_s1_parse :
    transmissionFromFile "2023" s1FileName = ParseOutcome.parsed s1Actual := by
  decide

/-! ## Claim C7 — catalog enumeration -/

/-- Claim C7 (code bug): `transmissions()` never returns the catalog's
rows — `DatabaseStore.transmissions` raises `NotImplementedError` for
every store state, and no class in the source tree overrides it, although
the SELECT query `queries.transmissions` exists and the indexer's
`existingOnly` path calls the method. -/
theorem claim7_not_implemented (db : DB) :
    transmissions db = (Except.error StoreFailure.notImplemented, db) := rfl

/-! ## Claim C8 — parser domain and dispatch -/

/-- Claim C8 counterexample: a `.wav` filename with a `2017-` prefix is
not parsed by the 2017 grammar; `_transmissionFromFile` dispatches only
`2023-` and `2024-` prefixes and raises `InvalidFileError` ("no matching
pattern", i.e. UnknownFormat) for this 2017 filename taken from the
source's own `pattern_2017` examples. -/
theorem claim8_counterexample :
    hasWavSuffix f2017Name = true ∧
    startsWithStr f2017Name "2017-" = true ∧
    transmissionFromFile "2017" f2017Name =
      ParseOutcome.invalid ("No matching pattern for " ++ f2017Name) := by
  refine ⟨by decide, by decide, ?_⟩
  rfl

/-- Claim C8 (amended): filenames without a `.wav` suffix are silently
skipped; dispatch by year prefix tries only two grammars — `2023-` goes
to the 2023 grammar and `2024-` to the 2024 grammar, in each case
producing a record exactly when the grammar matches and a "Pattern
failed" error otherwise — while every other prefix, `2017-` included,
fails with UnknownFormat ("No matching pattern"); the 2017 pattern exists
in the source but is never consulted. -/
theorem claim8_dispatch (eventID name : String) :
    (hasWavSuffix name = false →
      transmissionFromFile eventID name = ParseOutcome.notAudio) ∧
    (hasWavSuffix name = true → startsWithStr name "2023-" = true →
      ((∃ m, parse2023 name = some m ∧
          transmissionFromFile eventID name =
            ParseOutcome.parsed (assemble2023 eventID name m)) ∨
       (parse2023 name = none ∧
          transmissionFromFile eventID name =
            ParseOutcome.invalid ("Pattern failed for " ++ name)))) ∧
    (hasWavSuffix name = true → startsWithStr name "2023-" = false →
      startsWithStr name "2024-" = true →
      ((∃ m, parse2024 name = some m ∧
          transmissionFromFile eventID name =
            ParseOutcome.parsed (assemble2024 eventID name m)) ∨
       (parse2024 name = none ∧
          transmissionFromFile eventID name =
            ParseOutcome.invalid ("Pattern failed for " ++ name)))) ∧
    (hasWavSuffix name = true → startsWithStr name "2023-" = false →
      startsWithStr name "2024-" = false →
      transmissionFromFile eventID name =
        ParseOutcome.invalid ("No matching pattern for " ++ name)) := by
  refine ⟨?_, ?_, ?_, ?_⟩
  · intro hw
    simp [transmissionFromFile, hw]
  · intro hw h23
    cases hm : parse2023 name with
    | none =>
      right
      exact ⟨rfl, by simp [transmissionFromFile, hw, h23, hm]⟩
    | some m =>
      left
      exact ⟨m, rfl, by simp [transmissionFromFile, hw, h23, hm]⟩
  · intro hw h23 h24
    cases hm : parse2024 name with
    | none =>
      right
      exact ⟨rfl, by simp [transmissionFromFile, hw, h23, h24, hm]⟩
    | some m =>
      left
      exact ⟨m, rfl, by simp [transmissionFromFile, hw, h23, h24, hm]⟩
  · intro hw h23 h24
    simp [transmissionFromFile, hw, h23, h24]

/-! ## Claims C1 and C5 — ensure semantics -/

/-- Membership in the proposal list of `_ensureTransmission`'s tail. -/
theorem mem_proposalsFor (tr : Transmission) (cc cd ct : Bool)
    (task : EnrichTask) :
    task ∈ proposalsFor tr cc cd ct ↔
      ((task = EnrichTask.addSignature ∧ cc = true ∧ tr.sha256 = none) ∨
       (task = EnrichTask.addDuration ∧ cd = true ∧ tr.duration = none) ∨
       (task = EnrichTask.addTranscription ∧ ct = true ∧ tr.transcription = none)) := by
  cases cc <;> cases cd <;> cases ct <;>
    cases hs : tr.sha256 <;> cases hd : tr.duration <;>
    cases ht : tr.transcription <;>
    simp [proposalsFor, hs, hd, ht]

/-- Writes that never target the SHA256 column leave it unchanged. -/
theorem applyWrites_keep_sha256 (e : Transmission) (ws : List AttrWrite)
    (h : ∀ w ∈ ws, w.task ≠ EnrichTask.addSignature) :
    (applyWrites e ws).sha256 = e.sha256 := by
  induction ws generalizing e with
  | nil => rfl
  | cons w rest ih =>
    have hw : (applyWrite e w).sha256 = e.sha256 := by
      cases w with
      | wDuration v => rfl
      | wSha256 v => exact absurd rfl (h _ (List.mem_cons_self _ _))
      | wTranscription v => rfl
    calc (applyWrites e (w :: rest)).sha256
        = (applyWrites (applyWrite e w) rest).sha256 := rfl
      _ = (applyWrite e w).sha256 :=
          ih _ (fun w2 hw2 => h w2 (List.mem_cons_of_mem _ hw2))
      _ = e.sha256 := hw

/-- Writes that never target the DURATION column leave it unchanged. -/
theorem applyWrites_keep_duration (e : Transmission) (ws : List AttrWrite)
    (h : ∀ w ∈ ws, w.task ≠ EnrichTask.addDuration) :
    (applyWrites e ws).duration = e.duration := by
  induction ws generalizing e with
  | nil => rfl
  | cons w rest ih =>
    have hw : (applyWrite e w).duration = e.duration := by
      cases w with
      | wDuration v => exact absurd rfl (h _ (List.mem_cons_self _ _))
      | wSha256 v => rfl
      | wTranscription v => rfl
    calc (applyWrites e (w :: rest)).duration
        = (applyWrites (applyWrite e w) rest).duration := rfl
      _ = (applyWrite e w).duration :=
          ih _ (fun w2 hw2 => h w2 (List.mem_cons_of_mem _ hw2))
      _ = e.duration := hw

/-- Writes that never target the TRANSCRIPTION column leave it
unchanged. -/
theorem applyWrites_keep_transcription (e : Transmission) (ws : List AttrWrite)
    (h : ∀ w ∈ ws, w.task ≠ EnrichTask.addTranscription) :
    (applyWrites e ws).transcription = e.transcription := by
  induction ws generalizing e with
  | nil => rfl
  | cons w rest ih =>
    have hw : (applyWrite e w).transcription = e.transcription := by
      cases w with
      | wDuration v => rfl
      | wSha256 v => rfl
      | wTranscription v => exact absurd rfl (h _ (List.mem_cons_self _ _))
    calc (applyWrites e (w :: rest)).transcription
        = (applyWrites (applyWrite e w) rest).transcription := rfl
      _ = (applyWrite e w).transcription :=
          ih _ (fun w2 hw2 => h w2 (List.mem_cons_of_mem _ hw2))
      _ = e.transcription := hw

/-- The ensure pass on a matching existing row proposes no task for an
attribute that is already non-null. -/
theorem not_proposed_of_filled (e t : Transmission) (cc cd ct : Bool)
    (hst : t.station = e.station) (hpa : t.path = e.path) (task : EnrichTask)
    (hfilled : (task = EnrichTask.addSignature → e.sha256 ≠ none) ∧
               (task = EnrichTask.addDuration → e.duration ≠ none) ∧
               (task = EnrichTask.addTranscription → e.transcription ≠ none)) :
    task ∉ (ensureTransmission (some e) t cc cd ct).proposals := by
  have hres : (ensureTransmission (some e) t cc cd ct).proposals
      = proposalsFor e cc cd ct := by
    simp [ensureTransmission, hst, hpa]
  rw [hres, mem_proposalsFor]
  rintro (⟨h1, _, h3⟩ | ⟨h1, _, h3⟩ | ⟨h1, _, h3⟩)
  · exact hfilled.1 h1 h3
  · exact hfilled.2.1 h1 h3
  · exact hfilled.2.2 h1 h3

/-- Claim C1: for a recording already present in the catalog (looked up
by composite key, with the station and path of the re-scanned record
matching the stored row), the ensure pass of a re-run creates no row and
proposes no set-operation for any derived attribute that is already
non-null; in particular a fully enriched row gets an empty proposal list,
so the writes of the re-run leave the row unchanged. -/
theorem claim1_rescan_monotone (e t : Transmission) (cc cd ct : Bool)
    (hst : t.station = e.station) (hpa : t.path = e.path) :
    C1Concl e t cc cd ct := by
  have hres : ensureTransmission (some e) t cc cd ct
      = ⟨none, none, proposalsFor e cc cd ct⟩ := by
    simp [ensureTransmission, hst, hpa]
  have hnsig : e.sha256 ≠ none →
      EnrichTask.addSignature ∉ (ensureTransmission (some e) t cc cd ct).proposals :=
    fun h => not_proposed_of_filled e t cc cd ct hst hpa _
      ⟨fun _ => h, fun hk => absurd hk (by decide), fun hk => absurd hk (by decide)⟩
  have hndur : e.duration ≠ none →
      EnrichTask.addDuration ∉ (ensureTransmission (some e) t cc cd ct).proposals :=
    fun h => not_proposed_of_filled e t cc cd ct hst hpa _
      ⟨fun hk => absurd hk (by decide), fun _ => h, fun hk => absurd hk (by decide)⟩
  have hntr : e.transcription ≠ none →
      EnrichTask.addTranscription ∉ (ensureTransmission (some e) t cc cd ct).proposals :=
    fun h => not_proposed_of_filled e t cc cd ct hst hpa _
      ⟨fun hk => absurd hk (by decide), fun hk => absurd hk (by decide), fun _ => h⟩
  refine ⟨by rw [hres], hnsig, hndur, hntr, ?_, ?_⟩
  · intro ws hws
    refine ⟨?_, ?_, ?_⟩
    · intro hnn
      refine applyWrites_keep_sha256 e ws (fun w hw hk => ?_)
      have hmem := hws w hw
      rw [hk] at hmem
      exact hnsig hnn hmem
    · intro hnn
      refine applyWrites_keep_duration e ws (fun w hw hk => ?_)
      have hmem := hws w hw
      rw [hk] at hmem
      exact hndur hnn hmem
    · intro hnn
      refine applyWrites_keep_transcription e ws (fun w hw hk => ?_)
      have hmem := hws w hw
      rw [hk] at hmem
      exact hntr hnn hmem
  · intro hs hd ht
    have hemp : (ensureTransmission (some e) t cc cd ct).proposals = [] := by
      rw [hres]
      rcases Option.ne_none_iff_exists.mp hs with ⟨vs, hvs⟩
      rcases Option.ne_none_iff_exists.mp hd with ⟨vd, hvd⟩
      rcases Option.ne_none_iff_exists.mp ht with ⟨vt, hvt⟩
      simp [proposalsFor, ← hvs, ← hvd, ← hvt]
    refine ⟨hemp, ?_⟩
    intro ws hws
    have hnil : ws = [] := by
      cases hw : ws with
      | nil => rfl
      | cons w rest =>
        have := hws w (by simp [hw])
        rw [hemp] at this
        simp at this
    rw [hnil]
    rfl

/-- Witness for claim C1: the fully enriched sample row, re-scanned. -/
theorem claim1_witness :
    tSample.station = eSample.station ∧ tSample.path = eSample.path ∧
    C1Concl eSample tSample true true true :=
  ⟨rfl, rfl, claim1_rescan_monotone eSample tSample true true true rfl rfl⟩

/-- Claim C5: when the transcriber raises with description `msg`, the
`addTranscription` task does not propagate the failure: it still issues
its single store write, for the transmission's composite key, with value
`"*** ERROR: " ++ msg`; that value begins with the sentinel, applying the
write makes the transcription column non-null, and a row with a non-null
transcription is never proposed for transcription again by a later ensure
pass. -/
theorem claim5_error_sentinel (t : Transmission) (msg : String) :
    C5Concl t msg := by
  refine ⟨rfl, ⟨msg, rfl⟩, fun e => rfl, ?_⟩
  intro e t2 cc cd ct h
  unfold ensureTransmission
  by_cases h1 : t2.station ≠ e.station
  · simp [h1]
  · by_cases h2 : t2.path ≠ e.path
    · simp [h1, h2]
    · simp only [h1, h2, if_false, ite_false]
      rw [mem_proposalsFor]
      rintro (⟨hk, _, _⟩ | ⟨hk, _, _⟩ | ⟨_, _, h3⟩)
      · exact absurd hk (by decide)
      · exact absurd hk (by decide)
      · exact h h3

/-! ## Claim C4 — concurrency cap -/

/-- Every state the runner reaches keeps exactly `n` worker slots. -/
theorem runner_workers_len (tasks : List τ) (n : Nat) :
    ∀ s : RunnerState τ, RunnerReach (runnerInit tasks n) s →
      s.workers.length = n := by
  intro s h
  induction h with
  | refl => simp [runnerInit]
  | step h1 h2 ih =>
    cases h2 with
    | start i t rest hw hp => simpa using ih
    | finish i t hw => simpa using ih

/-- Claim C4: for every task list and every positive `n`, at every
reachable instant of `runInParallel(tasks, maxTasks = n)` the number of
started-but-not-completed tasks is at most `n` — each of the `n`
cooperative workers holds at most one in-flight task. -/
theorem claim4_concurrency_cap (tasks : List τ) (n : Nat) (_hn : 0 < n)
    (s : RunnerState τ) (h : RunnerReach (runnerInit tasks n) s) :
    inFlight s ≤ n := by
  have hl := runner_workers_len tasks n s h
  exact Nat.le_trans (List.countP_le_length _) (Nat.le_of_eq hl)

/-- Witness for claim C4: two tasks, two workers, the initial state. -/
theorem claim4_witness :
    0 < 2 ∧ inFlight (runnerInit [1, 2] 2) ≤ 2 :=
  ⟨by decide, claim4_concurrency_cap [1, 2] 2 (by decide) _ RunnerReach.refl⟩

/-! ## Claim C6 — read-your-writes for creation -/

/-- `find?` skips a prefix on which the predicate is false. -/
theorem find?_append_of_none (p : α → Bool) (l1 l2 : List α)
    (h : ∀ a ∈ l1, p a = false) : (l1 ++ l2).find? p = l2.find? p := by
  induction l1 with
  | nil => rfl
  | cons a l ih =>
    rw [List.cons_append, List.find?_cons, h a (List.mem_cons_self a l)]
    exact ih (fun x hx => h x (List.mem_cons_of_mem a hx))

/-- Claim C6: for a transmission `t` with an aware start time at or after
the UTC epoch whose composite key is absent from the store,
`createTransmission` succeeds, and a subsequent `transmission` lookup by
the same composite key returns the record `t` with its start time decoded
as the same instant expressed in UTC. -/
theorem claim6_read_your_writes (db : DB) (t : Transmission) (off : Int)
    (hoff : t.startTime.tzOffsetSeconds = some off)
    (hpos : 0 ≤ t.startTime.timestampWith off)
    (habsent : ∀ r ∈ db.rows,
      keyMatches r t.eventID t.system t.channel
        (t.startTime.timestampWith off) = false) :
    C6Concl db t off := by
  have henc : asDateTimeValue t.startTime
      = Except.ok (t.startTime.timestampWith off) := by
    rw [asDateTimeValue, hoff]
    simp [Int.not_lt.mpr hpos]
  have hany : db.rows.any (fun r => keyMatches r t.eventID t.system t.channel
      (t.startTime.timestampWith off)) = false := by
    rw [List.any_eq_false]
    intro r hr
    simp [habsent r hr]
  refine ⟨{ rows := db.rows ++ [rowOfTransmission t (t.startTime.timestampWith off)],
            queryLog := db.queryLog ++ ["create transmission"] }, ?_, ?_⟩
  · rw [createTransmission, henc]
    simp [hany]
  · rw [transmission, henc]
    simp only
    rw [find?_append_of_none _ _ _ (fun r hr => habsent r hr)]
    have hkey : keyMatches (rowOfTransmission t (t.startTime.timestampWith off))
        t.eventID t.system t.channel (t.startTime.timestampWith off) = true := by
      simp [keyMatches, rowOfTransmission]
    rw [List.find?_cons, hkey]
    rfl

/-- Witness for claim C6: inserting the scenario-S1 record into the empty
store and reading it back. -/
theorem claim6_witness :
    s1Actual.startTime.tzOffsetSeconds = some (-25200) ∧
    0 ≤ s1Actual.startTime.timestampWith (-25200) ∧
    C6Concl dbEmpty s1Actual (-25200) :=
  ⟨rfl, by decide,
    claim6_read_your_writes dbEmpty s1Actual (-25200) rfl (by decide)
      (by intro r hr; simp [dbEmpty] at hr)⟩

/-! ## Claim C10 — pre-epoch and naive start times -/

/-- A string extended on the right still starts with itself. -/
theorem isPrefixOf_append_self (l r : List Char) :
    l.isPrefixOf (l ++ r) = true := by
  induction l with
  | nil => simp [List.isPrefixOf]
  | cons a l ih => simp [List.isPrefixOf, ih]

theorem startsWithStr_concat (pre rest : String) :
    startsWithStr (pre ++ rest) pre = true := by
  rw [startsWithStr, String.data_append]
  exact isPrefixOf_append_self pre.data rest.data

/-- Claim C10: for a zone-aware start time strictly before the UTC epoch,
both encoding store operations — `createTransmission` and the
composite-key `transmission` lookup — raise a `StorageError` whose
message begins with "DateTime is before the UTC epoch" before executing
any query, leaving the catalog state (rows and query log) unchanged; for
a naive start time the encoder's assertion fails instead, likewise before
any query. -/
theorem claim10_pre_epoch_guard (db : DB) (t : Transmission) (off : Int)
    (hoff : t.startTime.tzOffsetSeconds = some off)
    (hneg : t.startTime.timestampWith off < 0) :
    C10Concl db t := by
  have henc : asDateTimeValue t.startTime
      = Except.error (StoreFailure.storageError
          ("DateTime is before the UTC epoch: " ++ dtStr t.startTime)) := by
    rw [asDateTimeValue, hoff]
    simp [hneg]
  refine ⟨⟨"DateTime is before the UTC epoch: " ++ dtStr t.startTime, ?_, ?_⟩,
          ⟨"DateTime is before the UTC epoch: " ++ dtStr t.startTime, ?_, ?_⟩, ?_⟩
  · rw [createTransmission, henc]
  · exact startsWithStr_concat "DateTime is before the UTC epoch" _
  · rw [transmission, henc]
  · exact startsWithStr_concat "DateTime is before the UTC epoch" _
  · intro db2 t2 hnone
    have henc2 : asDateTimeValue t2.startTime
        = Except.error StoreFailure.assertionError := by
      rw [asDateTimeValue, hnone]
    exact ⟨by rw [createTransmission, henc2], by rw [transmission, henc2]⟩

/-- Witness for claim C10: a store operation on a transmission dated
1969-01-01T00:00:00Z. -/
theorem claim10_witness :
    tPreEpoch.startTime.tzOffsetSeconds = some 0 ∧
    tPreEpoch.startTime.timestampWith 0 < 0 ∧
    C10Concl dbEmpty tPreEpoch :=
  ⟨rfl, by decide,
    claim10_pre_epoch_guard dbEmpty tPreEpoch 0 rfl (by decide)⟩

/-! ## Claim C9 — rate-limiter window bound -/

/-- Claim C9 (code bug): with `maxRate = 1` and `timeWindow = 5/2`, the
rate limiter admits releases at times 0, 1 and 2 — each release guard
sees fewer than `maxRate * timeWindow = 5/2` prior releases inside its
window — yet the rolling window `(2 - 5/2, 2]` then holds 3 > 5/2
releases, violating the claimed bound; and at the next poll the pruned
list still holds all three timestamps, so the source's own invariant
check, `assert len(processed) <= maxPerWindow` in `taskCount`, fails.
(The count of releases in a window can only be bounded by
`ceil(maxRate * timeWindow)`; the two bounds coincide exactly when
`maxRate * timeWindow` is an integer, as with the default
`timeWindow = 2.0`.) -/
theorem claim9_window_violation :
    RLReach 1 (5/2) 0 ⟨[0, 1, 2], [0, 1, 2], 2⟩ ∧
    (1 : ℚ) * (5/2) < ((windowCount [0, 1, 2] 2 (5/2) : ℕ) : ℚ) ∧
    ¬ (((pruneAux [0, 1, 2] (2 - 5/2)).length : ℚ) ≤ (1 : ℚ) * (5/2)) := by
  refine ⟨?_, ?_, ?_⟩
  · have h1 : RLStep 1 (5/2) ⟨[], [], 0⟩ ⟨[0], [0], 0⟩ := by
      have h := @RLStep.release 1 (5/2) ⟨[], [], 0⟩ 0 0
        (le_refl 0) (le_refl 0) (by norm_num [pruneAux])
      simpa [pruneAux] using h
    have h2 : RLStep 1 (5/2) ⟨[0], [0], 0⟩ ⟨[0, 1], [0, 1], 1⟩ := by
      have h := @RLStep.release 1 (5/2) ⟨[0], [0], 0⟩ 1 1
        (by norm_num) (le_refl 1) (by norm_num [pruneAux])
      have e1 : pruneAux [0] ((1 : ℚ) - 5/2) = [0] := by norm_num [pruneAux]
      rw [e1] at h
      simpa using h
    have h3 : RLStep 1 (5/2) ⟨[0, 1], [0, 1], 1⟩ ⟨[0, 1, 2], [0, 1, 2], 2⟩ := by
      have h := @RLStep.release 1 (5/2) ⟨[0, 1], [0, 1], 1⟩ 2 2
        (by norm_num) (le_refl 2) (by norm_num [pruneAux])
      have e1 : pruneAux [0, 1] ((2 : ℚ) - 5/2) = [0, 1] := by norm_num [pruneAux]
      rw [e1] at h
      simpa using h
    exact RLReach.step (RLReach.step (RLReach.step RLReach.init h1) h2) h3
  · norm_num [windowCount, List.countP, List.countP.go]
  · norm_num [pruneAux]

end RTX
